import Mathlib

/-!
Shallow embedding of the azuredebug server (src/main.py, src/bot.py).

`main.py` exposes a FastAPI app with POST /connect (provisions a Daily room and
token, schedules a bot background task), POST /offer (accepts a WebRTC offer,
creates a connection, schedules a bot task, returns the SDP answer),
GET /health and GET /.  `bot.py` builds a two-stage pipeline and, on the
transport event "on_client_connected", queues a greeting frame followed by an
end frame.

Modelling choices:
- the process environment at the moment of a call (`os.getenv`) is a function
  `String → Option String`;
- external services (the Daily REST helper, the WebRTC connection answer) are
  parameters: the outcome of the remote room/token calls is an
  `Except String (String × String)` and `get_answer()` is an `Option String`
  (Python falsiness of the answer is `none` or the empty value);
- side effects (remote provisioning attempt with the expiration values the
  code passes, background-task scheduling, connection creation) are recorded
  in an event trace returned alongside the HTTP result, in program order;
- `time.time()` is a natural number `now`; the room expiration the code
  requests is `now + 7200` and the token expiry argument is `7200`;
- Python string helpers (`str.split(",")`, `str.strip()`, `str.lower()`) are
  re-implemented structurally on `List Char` so that all definitions evaluate
  by kernel reduction.
-/

namespace Azuredebug

/-- The process environment at the time of a call: `os.getenv(key)`. -/
def EnvT : Type := String → Option String

/-- Python `raw.split(",")` on the character list: `""` splits to `[""]`,
separators at the ends produce empty pieces. -/
def splitCommaChars : List Char → List (List Char)
  | [] => [[]]
  | c :: cs =>
    if c = ',' then [] :: splitCommaChars cs
    else
      match splitCommaChars cs with
      | [] => [[c]]
      | piece :: pieces => (c :: piece) :: pieces

/-- Python `raw.split(",")`. -/
def pySplitComma (s : String) : List String :=
  (splitCommaChars s.toList).map String.mk

/-- Python `item.strip()` (whitespace on both ends). -/
def pyStrip (s : String) : String :=
  String.mk (((s.toList.dropWhile Char.isWhitespace).reverse.dropWhile
    Char.isWhitespace).reverse)

/-- Python `item.lower()` (ASCII case folding, which is all the code uses). -/
def pyLower (s : String) : String :=
  String.mk (s.toList.map Char.toLower)

/-- `get_enabled_transports` from src/main.py:
`raw = os.getenv("TRANSPORT_TYPE", "daily")`, split on commas, keep the items
whose strip is non-empty, strip and lower-case each, and fall back to
`["daily"]` when the list is empty. -/
def get_enabled_transports (env : EnvT) : List String :=
  let raw_value := (env "TRANSPORT_TYPE").getD "daily"
  let transports := ((pySplitComma raw_value).filter
      (fun item => pyStrip item ≠ "")).map (fun item => pyLower (pyStrip item))
  if transports.isEmpty then ["daily"] else transports

/-- `get_default_transport` from src/main.py: head of the enabled list. -/
def get_default_transport (env : EnvT) : String :=
  ((get_enabled_transports env).headD "daily")

/-- Observable side effects of a request, in program order. -/
inductive Event where
  /-- The Daily REST sequence (`create_room` then `get_token`) is attempted;
  `roomExp` is the `exp` the code passes in `DailyRoomProperties`
  (`time.time() + 7200`) and `tokenExpiry` the `expiry_time` argument. -/
  | provisionAttempt (roomExp : Nat) (tokenExpiry : Nat)
  /-- `background_tasks.add_task(bot, runner_args)`. -/
  | scheduleBot
  /-- `SmallWebRTCConnection()` is constructed and initialized. -/
  | createConnection
  deriving DecidableEq, Repr

/-- Outcome of an endpoint call: a value or an `HTTPException`. -/
inductive HttpResult (α : Type) where
  | ok (value : α)
  | httpError (status : Nat) (detail : String)
  deriving DecidableEq, Repr

/-- 400-class outcome. -/
def HttpResult.isClientError {α : Type} : HttpResult α → Bool
  | .httpError status _ => 400 ≤ status && status < 500
  | .ok _ => false

/-- 500-class outcome. -/
def HttpResult.isServerError {α : Type} : HttpResult α → Bool
  | .httpError status _ => 500 ≤ status && status < 600
  | .ok _ => false

/-- `create_daily_room_and_token` from src/main.py.  `daily_rest` is the
outcome of the remote helper calls (`create_room` then `get_token`): an
exception message, or the pair `(room.url, token)`.  The missing/empty
API key raises `HTTPException(500, "DAILY_API_KEY not configured")`, whose
`str()` is `"500: DAILY_API_KEY not configured"`; it propagates as an
exception to the caller like any other failure. -/
def create_daily_room_and_token (env : EnvT)
    (daily_rest : Except String (String × String)) (now : Nat) :
    Except String (String × String) × List Event :=
  match env "DAILY_API_KEY" with
  | none => (.error "500: DAILY_API_KEY not configured", [])
  | some daily_api_key =>
    if daily_api_key = "" then
      (.error "500: DAILY_API_KEY not configured", [])
    else
      match daily_rest with
      | .error e => (.error e, [.provisionAttempt (now + 7200) 7200])
      | .ok (url, token) => (.ok (url, token), [.provisionAttempt (now + 7200) 7200])

/-- The JSON body of a successful /connect response. -/
structure ConnectResponse where
  dailyRoom : String
  dailyToken : String
  message : String
  deriving DecidableEq, Repr

/-- The `/connect` endpoint from src/main.py.  `transport_field` is the
`transport_type` field of the request body (`none` when absent, which also
covers a `None`/empty body).  The requested type defaults to the first enabled
transport and is lower-cased before the checks.  Any exception from
`create_daily_room_and_token` is caught and re-raised as a 500. -/
def connect (env : EnvT) (daily_rest : Except String (String × String))
    (now : Nat) (transport_field : Option String) :
    HttpResult ConnectResponse × List Event :=
  let enabled_transports := get_enabled_transports env
  let transport_type := pyLower (transport_field.getD (get_default_transport env))
  if transport_type ∉ enabled_transports then
    (.httpError 400 ("Transport \x27" ++ transport_type ++ "\x27 non disponible"), [])
  else if transport_type ≠ "daily" then
    (.httpError 400 "Utilisez l\x27endpoint /offer pour SmallWebRTC", [])
  else
    match create_daily_room_and_token env daily_rest now with
    | (.error e, trace) =>
      (.httpError 500 ("Échec de création de la room Daily: " ++ e), trace)
    | (.ok (room_url, token), trace) =>
      (.ok { dailyRoom := room_url, dailyToken := token,
             message := "Room Daily créée avec succès, bot lancé" },
       trace ++ [.scheduleBot])

/-- The JSON body of the /health response. -/
structure HealthResponse where
  status : String
  service : String
  enabled_transports : List String
  deriving DecidableEq, Repr

/-- The `/health` endpoint from src/main.py. -/
def health_check (env : EnvT) : HealthResponse :=
  { status := "healthy"
    service := "azuredebug-server"
    enabled_transports := get_enabled_transports env }

/-- The /offer request body, keeping only what the handler inspects: whether
the `"sdp"` and `"type"` keys are present and their values. -/
structure OfferRequest where
  sdp : Option String
  type : Option String
  deriving DecidableEq, Repr

/-- The `/offer` endpoint from src/main.py.  `answer` is what
`webrtc_connection.get_answer()` would return for this connection (`none` for
an absent answer; the Python falsiness test also rejects an empty value). -/
def offer (env : EnvT) (answer : Option String) (request : OfferRequest) :
    HttpResult String × List Event :=
  if "smallwebrtc" ∉ get_enabled_transports env then
    (.httpError 400 "Le transport SmallWebRTC n\x27est pas activé", [])
  else
    match request.sdp, request.type with
    | some _, some _ =>
      let trace := [Event.createConnection, Event.scheduleBot]
      match answer with
      | none => (.httpError 500 "Impossible de créer une réponse WebRTC", trace)
      | some a =>
        if a = "" then (.httpError 500 "Impossible de créer une réponse WebRTC", trace)
        else (.ok a, trace)
    | _, _ => (.httpError 400 "Offre SDP invalide", [])

/-- Number of remote provisioning attempts recorded in a trace. -/
def Event.isProvisionAttempt : Event → Bool
  | .provisionAttempt _ _ => true
  | _ => false

/-- Count of provisioning attempts in a trace. -/
def provisionAttempts (trace : List Event) : Nat :=
  (trace.filter Event.isProvisionAttempt).length

/-- Frames of src/bot.py that the client-connected handler queues. -/
inductive Frame where
  | TTSSpeakFrame (text : String)
  | EndFrame
  deriving DecidableEq, Repr

/-- The greeting frame queued by `on_client_connected` in src/bot.py. -/
def greeting_frame : Frame :=
  Frame.TTSSpeakFrame "Bonjour le monde je suis ici en France!"

/-- The list passed to `task.queue_frames` by `on_client_connected`. -/
def on_client_connected_frames : List Frame :=
  [greeting_frame, Frame.EndFrame]

/-- `on_client_connected` from src/bot.py as a queue transformer:
`task.queue_frames([TTSSpeakFrame(...), EndFrame()])` appends the two frames,
in that order, to the pipeline input queue. -/
def on_client_connected (queued : List Frame) : List Frame :=
  queued ++ on_client_connected_frames

/-- An environment assigning the two variables the handlers read. -/
def testEnv (transport_value : Option String) (api_key : Option String) : EnvT :=
  fun key =>
    if key = "TRANSPORT_TYPE" then transport_value
    else if key = "DAILY_API_KEY" then api_key
    else none

/-- C4: parsing the enabled-transport environment value splits on commas,
trims, lower-cases and preserves order: `"Daily, SmallWebRTC"` yields
`["daily", "smallwebrtc"]`, and the empty string yields `["daily"]`. -/
theorem get_enabled_transports_parsing :
    get_enabled_transports (testEnv (some "Daily, SmallWebRTC") none)
      = ["daily", "smallwebrtc"]
    ∧ get_enabled_transports (testEnv (some "") none) = ["daily"] := by
  constructor <;> rfl

/-- C8: for a client-connected event, the handler queues the spoken greeting
strictly before the end-of-session marker: it appends exactly
`[greeting, EndFrame]` to the queue, and in that queued list the greeting
occurs at a strictly smaller index than the end marker. -/
theorem client_connected_greeting_before_end :
    (∀ queued, on_client_connected queued
        = queued ++ [greeting_frame, Frame.EndFrame])
    ∧ greeting_frame ∈ on_client_connected_frames
    ∧ Frame.EndFrame ∈ on_client_connected_frames
    ∧ on_client_connected_frames.indexOf greeting_frame
        < on_client_connected_frames.indexOf Frame.EndFrame := by
  refine ⟨fun queued => rfl, ?_, ?_, ?_⟩ <;> decide

/-- C9: /connect lower-cases the requested transport_type before any check, so
two requests whose transport_type fields agree after lower-casing get the
identical outcome and trace; in particular "DAILY" behaves like "daily". -/
theorem connect_transport_type_case_insensitive (env : EnvT)
    (daily_rest : Except String (String × String)) (now : Nat) (t1 t2 : String)
    (h : pyLower t1 = pyLower t2) :
    connect env daily_rest now (some t1) = connect env daily_rest now (some t2) := by
  unfold connect
  simp only [Option.getD_some, h]

/-- Witness for C9: with only "daily" enabled, a request with "DAILY" gets the
same outcome as one with "daily". -/
theorem connect_transport_type_case_insensitive_witness :
    connect (testEnv (some "daily") (some "key")) (.ok ("u", "t")) 0 (some "DAILY")
      = connect (testEnv (some "daily") (some "key")) (.ok ("u", "t")) 0 (some "daily") :=
  connect_transport_type_case_insensitive
    (testEnv (some "daily") (some "key")) (.ok ("u", "t")) 0 "DAILY" "daily" (by decide)

/-- C5: an /offer request missing the "sdp" key or the "type" key gets a
400-class error and no side effect happens: no connection object is created
and no bot task is scheduled (the trace is empty).  This holds whether the
handler stops at the transport check or at the payload check. -/
theorem offer_missing_fields_client_error (env : EnvT) (answer : Option String)
    (request : OfferRequest)
    (h : request.sdp = none ∨ request.type = none) :
    (offer env answer request).1.isClientError = true
    ∧ (offer env answer request).2 = [] := by
  rcases request with ⟨sdp, ty⟩
  unfold offer
  by_cases hs : "smallwebrtc" ∈ get_enabled_transports env
  · rcases h with h | h <;> simp_all [HttpResult.isClientError]
  · simp_all [HttpResult.isClientError]

/-- Witness for C5: smallwebrtc enabled, payload missing "sdp". -/
theorem offer_missing_fields_client_error_witness :
    (offer (testEnv (some "smallwebrtc") none) (some "a")
        { sdp := none, type := some "offer" }).1.isClientError = true
    ∧ (offer (testEnv (some "smallwebrtc") none) (some "a")
        { sdp := none, type := some "offer" }).2 = [] :=
  offer_missing_fields_client_error (testEnv (some "smallwebrtc") none) (some "a")
    { sdp := none, type := some "offer" } (Or.inl rfl)

/-- C6: for a valid /offer request (smallwebrtc enabled, sdp and type present),
an absent or empty answer from the connection yields a 500-class error, and a
non-empty answer is returned synchronously as the success value. -/
theorem offer_answer_semantics (env : EnvT) (answer : Option String)
    (s t : String) (request : OfferRequest)
    (h1 : "smallwebrtc" ∈ get_enabled_transports env)
    (h2 : request.sdp = some s) (h3 : request.type = some t) :
    ((answer = none ∨ answer = some "") →
      (offer env answer request).1.isServerError = true)
    ∧ (∀ a, answer = some a → a ≠ "" → (offer env answer request).1 = .ok a) := by
  rcases request with ⟨sdp, ty⟩
  cases h2
  cases h3
  unfold offer
  constructor
  · rintro (rfl | rfl) <;> simp [h1, HttpResult.isServerError]
  · rintro a rfl ha
    simp [h1, ha]

/-- Witness for C6: both branches at concrete inputs — answer `none` gives a
500-class error, answer `"v=0"` is returned as-is. -/
theorem offer_answer_semantics_witness :
    (offer (testEnv (some "smallwebrtc") none) none
        { sdp := some "s", type := some "offer" }).1.isServerError = true
    ∧ (offer (testEnv (some "smallwebrtc") none) (some "v=0")
        { sdp := some "s", type := some "offer" }).1 = .ok "v=0" :=
  ⟨(offer_answer_semantics (testEnv (some "smallwebrtc") none) none "s" "offer"
      { sdp := some "s", type := some "offer" } (by decide) rfl rfl).1 (Or.inl rfl),
   (offer_answer_semantics (testEnv (some "smallwebrtc") none) (some "v=0") "s" "offer"
      { sdp := some "s", type := some "offer" } (by decide) rfl rfl).2 "v=0" rfl
      (by decide)⟩

/-- C10: in /offer the connection is created and the bot task dispatched
before the answer is checked: on a valid request whose answer is absent or
empty, the endpoint returns a 500-class error but the trace already holds the
connection creation followed by the bot dispatch. -/
theorem offer_bot_scheduled_before_answer_check (env : EnvT)
    (answer : Option String) (s t : String) (request : OfferRequest)
    (h1 : "smallwebrtc" ∈ get_enabled_transports env)
    (h2 : request.sdp = some s) (h3 : request.type = some t)
    (h4 : answer = none ∨ answer = some "") :
    (offer env answer request).1.isServerError = true
    ∧ (offer env answer request).2 = [Event.createConnection, Event.scheduleBot] := by
  rcases request with ⟨sdp, ty⟩
  cases h2
  cases h3
  unfold offer
  rcases h4 with rfl | rfl <;> simp [h1, HttpResult.isServerError]

/-- Witness for C10: valid request, connection answers with the empty value. -/
theorem offer_bot_scheduled_before_answer_check_witness :
    (offer (testEnv (some "smallwebrtc") none) (some "")
        { sdp := some "s", type := some "offer" }).1.isServerError = true
    ∧ (offer (testEnv (some "smallwebrtc") none) (some "")
        { sdp := some "s", type := some "offer" }).2
      = [Event.createConnection, Event.scheduleBot] :=
  offer_bot_scheduled_before_answer_check (testEnv (some "smallwebrtc") none)
    (some "") "s" "offer" { sdp := some "s", type := some "offer" }
    (by decide) rfl rfl (Or.inr rfl)

/-- C1: a /connect request whose resolved transport type is not enabled, or is
enabled but differs from "daily", gets a 400-class error with an empty effect
trace (no provisioning, no room or token, no bot task); and /offer gets a
400-class error with an empty trace whenever "smallwebrtc" is not enabled. -/
theorem connect_offer_reject_without_provisioning (env : EnvT)
    (daily_rest : Except String (String × String)) (now : Nat)
    (transport_field : Option String) (answer : Option String)
    (request : OfferRequest) :
    ((pyLower (transport_field.getD (get_default_transport env))
          ∉ get_enabled_transports env
        ∨ pyLower (transport_field.getD (get_default_transport env)) ≠ "daily") →
      (connect env daily_rest now transport_field).1.isClientError = true
      ∧ (connect env daily_rest now transport_field).2 = [])
    ∧ ("smallwebrtc" ∉ get_enabled_transports env →
      (offer env answer request).1.isClientError = true
      ∧ (offer env answer request).2 = []) := by
  constructor
  · intro h
    unfold connect
    by_cases hmem : pyLower (transport_field.getD (get_default_transport env))
        ∈ get_enabled_transports env
    · have hne : pyLower (transport_field.getD (get_default_transport env)) ≠ "daily" := by
        rcases h with h | h
        · exact absurd hmem h
        · exact h
      simp [hmem, hne, HttpResult.isClientError]
    · simp [hmem, HttpResult.isClientError]
  · intro h
    unfold offer
    simp [h, HttpResult.isClientError]

/-- Witness for C1: with only "daily" enabled, a /connect request for
"smallwebrtc" and any /offer request are rejected with empty traces. -/
theorem connect_offer_reject_without_provisioning_witness :
    ((connect (testEnv (some "daily") none) (.ok ("u", "t")) 0
        (some "smallwebrtc")).1.isClientError = true
      ∧ (connect (testEnv (some "daily") none) (.ok ("u", "t")) 0
        (some "smallwebrtc")).2 = [])
    ∧ ((offer (testEnv (some "daily") none) (some "a")
        { sdp := some "s", type := some "offer" }).1.isClientError = true
      ∧ (offer (testEnv (some "daily") none) (some "a")
        { sdp := some "s", type := some "offer" }).2 = []) :=
  ⟨(connect_offer_reject_without_provisioning (testEnv (some "daily") none)
      (.ok ("u", "t")) 0 (some "smallwebrtc") (some "a")
      { sdp := some "s", type := some "offer" }).1 (Or.inl (by decide)),
   (connect_offer_reject_without_provisioning (testEnv (some "daily") none)
      (.ok ("u", "t")) 0 (some "smallwebrtc") (some "a")
      { sdp := some "s", type := some "offer" }).2 (by decide)⟩

/-- C2: every successful /connect response carries the room URL and token
returned by the provisioner together with the fixed message, and its effect
trace is exactly one provisioning attempt — performed at creation with room
expiration `now + 7200` and token expiry `7200` — followed by the bot
dispatch.  No other event touches the expiration, so it is fixed at creation
and never renewed. -/
theorem connect_success_room_token_ttl (env : EnvT)
    (daily_rest : Except String (String × String)) (now : Nat)
    (transport_field : Option String) (resp : ConnectResponse)
    (h : (connect env daily_rest now transport_field).1 = .ok resp) :
    resp.message = "Room Daily créée avec succès, bot lancé"
    ∧ (∃ url token, daily_rest = .ok (url, token)
        ∧ resp.dailyRoom = url ∧ resp.dailyToken = token)
    ∧ (connect env daily_rest now transport_field).2
        = [Event.provisionAttempt (now + 7200) 7200, Event.scheduleBot] := by
  obtain ⟨dr, dt, dm⟩ := resp
  unfold connect create_daily_room_and_token at h ⊢
  by_cases hmem : pyLower (transport_field.getD (get_default_transport env))
      ∈ get_enabled_transports env
  · by_cases hd : pyLower (transport_field.getD (get_default_transport env)) = "daily"
    · rw [hd] at hmem
      rcases hk : env "DAILY_API_KEY" with _ | key
      · rw [hk] at h
        simp [hmem, hd] at h
      · rw [hk] at h
        by_cases hkey : key = ""
        · simp [hmem, hd, hkey] at h
        · rcases daily_rest with e | ⟨u, t⟩
          · simp [hmem, hd, hkey] at h
          · simp [hmem, hd, hkey] at h ⊢
            obtain ⟨hu, ht, hm⟩ := h
            subst hu
            subst ht
            subst hm
            exact ⟨rfl, rfl, rfl⟩
    · simp [hmem, hd] at h
  · simp [hmem] at h

/-- Witness for C2: a concrete successful /connect call. -/
theorem connect_success_room_token_ttl_witness :
    ({ dailyRoom := "https://example.daily.co/room1", dailyToken := "tok1",
       message := "Room Daily créée avec succès, bot lancé" } :
        ConnectResponse).message = "Room Daily créée avec succès, bot lancé"
    ∧ (∃ url token,
        (Except.ok ("https://example.daily.co/room1", "tok1") :
            Except String (String × String)) = .ok (url, token)
        ∧ ({ dailyRoom := "https://example.daily.co/room1", dailyToken := "tok1",
             message := "Room Daily créée avec succès, bot lancé" } :
              ConnectResponse).dailyRoom = url
        ∧ ({ dailyRoom := "https://example.daily.co/room1", dailyToken := "tok1",
             message := "Room Daily créée avec succès, bot lancé" } :
              ConnectResponse).dailyToken = token)
    ∧ (connect (testEnv (some "daily") (some "key"))
        (.ok ("https://example.daily.co/room1", "tok1")) 5 none).2
      = [Event.provisionAttempt (5 + 7200) 7200, Event.scheduleBot] :=
  connect_success_room_token_ttl (testEnv (some "daily") (some "key"))
    (.ok ("https://example.daily.co/room1", "tok1")) 5 none
    { dailyRoom := "https://example.daily.co/room1", dailyToken := "tok1",
      message := "Room Daily créée avec succès, bot lancé" } (by decide)

/-- The provisioner records at most one remote attempt per call. -/
theorem create_daily_attempts_le_one (env : EnvT)
    (daily_rest : Except String (String × String)) (now : Nat) :
    provisionAttempts (create_daily_room_and_token env daily_rest now).2 ≤ 1 := by
  unfold create_daily_room_and_token
  split
  · simp [provisionAttempts]
  · split
    · simp [provisionAttempts]
    · split <;> simp [provisionAttempts, Event.isProvisionAttempt]

/-- C7: a missing (or empty) DAILY_API_KEY makes a valid /connect request fail
with a 500-class error before any remote attempt; every /connect request
performs at most one provisioning attempt; and on an upstream failure the
request fails 500-class after exactly one attempt — there is no retry. -/
theorem provisioner_config_error_single_attempt (env : EnvT)
    (daily_rest : Except String (String × String)) (now : Nat)
    (transport_field : Option String) :
    ((env "DAILY_API_KEY" = none ∨ env "DAILY_API_KEY" = some "") →
      pyLower (transport_field.getD (get_default_transport env))
          ∈ get_enabled_transports env →
      pyLower (transport_field.getD (get_default_transport env)) = "daily" →
      (connect env daily_rest now transport_field).1.isServerError = true
      ∧ provisionAttempts (connect env daily_rest now transport_field).2 = 0)
    ∧ provisionAttempts (connect env daily_rest now transport_field).2 ≤ 1
    ∧ (∀ key e, env "DAILY_API_KEY" = some key → key ≠ ""
        → daily_rest = .error e
        → pyLower (transport_field.getD (get_default_transport env))
            ∈ get_enabled_transports env
        → pyLower (transport_field.getD (get_default_transport env)) = "daily"
        → (connect env daily_rest now transport_field).1.isServerError = true
          ∧ provisionAttempts (connect env daily_rest now transport_field).2 = 1) := by
  refine ⟨?_, ?_, ?_⟩
  · intro hk hmem hd
    rw [hd] at hmem
    unfold connect create_daily_room_and_token
    rcases hk with hk | hk <;> rw [hk] <;>
      simp [hmem, hd, HttpResult.isServerError, provisionAttempts]
  · unfold connect
    by_cases hmem : pyLower (transport_field.getD (get_default_transport env))
        ∈ get_enabled_transports env
    · by_cases hd : pyLower (transport_field.getD (get_default_transport env)) = "daily"
      · rw [hd] at hmem
        rcases hcr : create_daily_room_and_token env daily_rest now with ⟨res, trace⟩
        have h1 := create_daily_attempts_le_one env daily_rest now
        rw [hcr] at h1
        cases res with
        | error e =>
          simp only [provisionAttempts] at h1
          simpa [hmem, hd, provisionAttempts] using h1
        | ok p =>
          obtain ⟨u, t⟩ := p
          simp only [provisionAttempts] at h1
          simpa [hmem, hd, provisionAttempts, Event.isProvisionAttempt,
            List.filter_append] using h1
      · simp [hmem, hd, provisionAttempts]
    · simp [hmem, provisionAttempts]
  · intro key e hk hkey hrest hmem hd
    subst hrest
    rw [hd] at hmem
    unfold connect create_daily_room_and_token
    rw [hk]
    simp [hmem, hd, hkey, HttpResult.isServerError, provisionAttempts,
      Event.isProvisionAttempt]

/-- Witness for C7: a missing key gives a 500-class error with zero attempts,
and an upstream failure gives a 500-class error after exactly one attempt. -/
theorem provisioner_config_error_single_attempt_witness :
    ((connect (testEnv (some "daily") none) (.ok ("u", "t")) 0 none).1.isServerError
        = true
      ∧ provisionAttempts
          (connect (testEnv (some "daily") none) (.ok ("u", "t")) 0 none).2 = 0)
    ∧ ((connect (testEnv (some "daily") (some "key")) (.error "boom") 0
          none).1.isServerError = true
      ∧ provisionAttempts
          (connect (testEnv (some "daily") (some "key")) (.error "boom") 0 none).2
        = 1) :=
  ⟨(provisioner_config_error_single_attempt (testEnv (some "daily") none)
      (.ok ("u", "t")) 0 none).1 (Or.inl (by decide)) (by decide) (by decide),
   (provisioner_config_error_single_attempt (testEnv (some "daily") (some "key"))
      (.error "boom") 0 none).2.2 "key" "boom" (by decide) (by decide) rfl
      (by decide) (by decide)⟩

/-- C3 counterexample: the enabled-transport list is not fixed at process
start — it is recomputed from the environment at each request, so two
requests of the same process that observe different values of TRANSPORT_TYPE
(the variable changed after start) report different enabled lists. -/
theorem enabled_transports_vary_after_start :
    (health_check (testEnv (some "daily") none)).enabled_transports
      ≠ (health_check (testEnv (some "smallwebrtc") none)).enabled_transports := by
  decide

/-- C3 amended: each request to /health (and the other handlers) derives the
enabled-transport list from the environment at request time via
`get_enabled_transports`, and that computation is a pure function of the
TRANSPORT_TYPE value: requests observing the same value use the same list. -/
theorem enabled_transports_recomputed_per_request (env e1 e2 : EnvT)
    (h : e1 "TRANSPORT_TYPE" = e2 "TRANSPORT_TYPE") :
    (health_check env).enabled_transports = get_enabled_transports env
    ∧ get_enabled_transports e1 = get_enabled_transports e2 := by
  refine ⟨rfl, ?_⟩
  unfold get_enabled_transports
  rw [h]

/-- Witness for the amended C3: two environments agreeing on TRANSPORT_TYPE
(but differing elsewhere) produce the same enabled list. -/
theorem enabled_transports_recomputed_per_request_witness :
    (health_check (testEnv (some "daily") none)).enabled_transports
        = get_enabled_transports (testEnv (some "daily") none)
    ∧ get_enabled_transports (testEnv (some "daily") none)
        = get_enabled_transports (testEnv (some "daily") (some "key")) :=
  enabled_transports_recomputed_per_request (testEnv (some "daily") none)
    (testEnv (some "daily") none) (testEnv (some "daily") (some "key")) (by decide)

end Azuredebug
